import Mathlib

set_option maxHeartbeats 2000000

namespace FluxLed

/-- RGB triple as returned by the bulb client call getRgb. -/
abbrev RGB := Nat × Nat × Nat

/-- RGBW quadruple as returned by the bulb client call getRgbw. -/
abbrev RGBW4 := Nat × Nat × Nat × Nat

/-- RGBWW quintuple (r, g, b, warm, cold) as returned by the bulb client call
getRgbww; the warm component sits at index 3 and the cold component at index 4
(matching temperature_ww, light.py lines 390-393, which documents index 3 as the
warm white channel). -/
abbrev RGBWW5 := Nat × Nat × Nat × Nat × Nat

/-- Hue/saturation pair as produced by the host color utilities. -/
abbrev HS := ℚ × ℚ

/-- Device mode constants, light.py lines 65-72. -/
inductive Mode where
  | rgb
  | rgbw
  | rgbcw
  | rgbww
  | w
deriving DecidableEq

/-- EFFECT_RANDOM constant imported from the host light component. -/
def EFFECT_RANDOM : String := "random"

/-- EFFECT_CUSTOM constant, light.py line 98. -/
def EFFECT_CUSTOM : String := "custom"

/-- EFFECT_MAP, light.py lines 100-121, in dict insertion order. -/
def EFFECT_MAP : List (String × Nat) :=
  [("colorloop", 0x25), ("red_fade", 0x26), ("green_fade", 0x27), ("blue_fade", 0x28),
   ("yellow_fade", 0x29), ("cyan_fade", 0x2A), ("purple_fade", 0x2B), ("white_fade", 0x2C),
   ("rg_cross_fade", 0x2D), ("rb_cross_fade", 0x2E), ("gb_cross_fade", 0x2F),
   ("colorstrobe", 0x30), ("red_strobe", 0x31), ("green_strobe", 0x32), ("blue_strobe", 0x33),
   ("yellow_strobe", 0x34), ("cyan_strobe", 0x35), ("purple_strobe", 0x36),
   ("white_strobe", 0x37), ("colorjump", 0x38)]

/-- EFFECT_CUSTOM_CODE, light.py line 122. -/
def EFFECT_CUSTOM_CODE : Nat := 0x60

/-- COLOR_TEMP_WARM_VS_COLD_WHITE_CUT_OFF, light.py line 76. -/
def COLOR_TEMP_WARM_VS_COLD_WHITE_CUT_OFF : Nat := 285

/-- Snapshot of the external bulb client observable state after a successful
update_state call: the attributes of self._bulb read by FluxLight.update
(light.py lines 297-344). -/
structure RawBulbState where
  mode : String
  rgbwcapable : Bool
  rgbwprotocol : Bool
  is_on : Bool
  brightness : Nat
  raw_state3 : Nat
  rgb : RGB
  rgbw : RGBW4
  rgbww : RGBWW5
deriving DecidableEq

/-- Cached entity fields of FluxLight, initialised to None in FluxLight.init,
light.py lines 240-258.  current_effect holds either the raw effect byte stored
by update (line 344) or the effect name string stored by turn_on (line 533);
Python keeps both in the same dynamically typed attribute, modelled as a sum. -/
structure LightState where
  state : Option Bool
  brightness : Option Nat
  hs_color : Option HS
  white_value : Option Nat
  current_effect : Option (String ⊕ Nat)
  last_brightness : Option Nat
  last_hs_color : Option HS
  mode : Option Mode
  get_rgbw : Option RGBW4
  get_rgb : Option RGB
  effect_speed : Nat
deriving DecidableEq

/-- Keyword arguments of FluxLight.turn_on, light.py lines 443-455. -/
structure TurnOnArgs where
  hs_color : Option HS := none
  brightness : Option Nat := none
  effect : Option String := none
  white : Option Nat := none
  color_temp : Option ℚ := none
deriving DecidableEq

/-- Calls issued to the external bulb client.  Numeric white-channel arguments
are rationals because the RGBCW paths pass Python floats. -/
inductive Cmd where
  | setRgbw (r g b : Option Nat) (w w2 : Option ℚ) (brightness : Option Nat)
  | setRgb (r g b : Nat) (brightness : Option Nat)
  | setWarmWhite255 (white : Nat)
  | setPresetPattern (code speed : Nat)
  | turnOn
  | turnOff
deriving DecidableEq

/-- Python runtime errors reachable in the translated code paths. -/
inductive PyErr where
  | typeError
deriving DecidableEq

/-- Python truthiness of an optional integer: None and 0 are falsy. -/
def pyTruthyNat (o : Option Nat) : Bool :=
  match o with
  | some n => n != 0
  | none => false

/-- Python truthiness of the optional boolean state attribute: None is falsy. -/
def pyTruthyBool (o : Option Bool) : Bool :=
  match o with
  | some b => b
  | none => false

/-- FluxLight.temperature_cw, light.py lines 385-388: returns the pair
(rgbww[4], rgbww[3]), i.e. (cold, warm). -/
def temperature_cw (rgbww : RGBWW5) : Nat × Nat :=
  (rgbww.2.2.2.2, rgbww.2.2.2.1)

/-- FluxLight.temperature_ww, light.py lines 390-393: returns rgbww[3],
the warm white component. -/
def temperature_ww (rgbww : RGBWW5) : Nat :=
  rgbww.2.2.2.1

/-- FluxLight.update, light.py lines 303-353, together with update_bulb_info
(lines 297-301).  A fetch failure (BrokenPipeError) is logged and the method
returns; if the failure happened at the getRgb stage the get_rgbw cache was
already overwritten, which the error payload records as an optional new value.
On success the normalized fields are recomputed from the snapshot.  The
MODE_RGBCW and MODE_RGBWW branches of lines 320-333 are translated although the
mode assignment of lines 313-318 never produces those modes; in those dead
branches a None brightness comparison at line 346 is modelled as falsy. -/
def update (rgbToHs : RGB → HS) (fetch : Except (Option RGBW4) RawBulbState)
    (s : LightState) : LightState :=
  match fetch with
  | Except.error partialRgbw =>
    match partialRgbw with
    | some v => { s with get_rgbw := some v }
    | none => s
  | Except.ok raw =>
    let mode : Mode :=
      if raw.mode = "ww" then Mode.w
      else if raw.rgbwcapable && !raw.rgbwprotocol then Mode.rgbw
      else Mode.rgb
    let wv : Nat :=
      if mode = Mode.rgbcw then
        let wt := temperature_cw raw.rgbww
        if wt.1 > wt.2 then wt.1 else wt.2
      else if mode = Mode.rgbww then temperature_ww raw.rgbww
      else raw.rgbw.2.2.2
    let b : Option Nat :=
      if mode = Mode.rgbcw then
        let wt := temperature_cw raw.rgbww
        if wt.1 != 0 || wt.2 != 0 then some 0 else s.brightness
      else if mode = Mode.rgbww then
        if raw.mode = "ww" then some 0 else s.brightness
      else if mode = Mode.w then some wv
      else some raw.brightness
    let hs := rgbToHs raw.rgb
    let st : Bool :=
      raw.is_on &&
        (match b with
         | some n => decide (0 < n)
         | none => false)
    { s with
      get_rgbw := some raw.rgbw
      get_rgb := some raw.rgb
      mode := some mode
      white_value := some wv
      brightness := b
      hs_color := some hs
      current_effect := some (Sum.inr raw.raw_state3)
      state := some st
      last_brightness := if st then b else s.last_brightness
      last_hs_color := if st then some hs else s.last_hs_color }

/-- Mired to Kelvin interpolation of FluxLight.turn_on, light.py lines 466-475:
(color_temp - mired_min) / (mired_max - mired_min) * (kelvin_max - kelvin_min)
+ kelvin_min with mired_min = 500, mired_max = 153, kelvin_min = 2700,
kelvin_max = 6500. -/
def kelvinOfMired (ct : ℚ) : ℚ :=
  (ct - 500) / (153 - 500) * (6500 - 2700) + 2700

/-- Warm channel value of the RGBCW color-temperature branch, light.py lines
477-480: with k = max(kelvin - 2700, 0), warm = 255 * (1 - k / 3800) scaled by
white / 255. -/
def rgbcwWarm (ct white : ℚ) : ℚ :=
  255 * (1 - max (kelvinOfMired ct - 2700) 0 / 3800) * (white / 255)

/-- Cold channel value of the RGBCW color-temperature branch before the
warm-dominance override, light.py lines 477-481: with k = max(kelvin - 2700, 0),
cold = min(255 * k / 3800, 255) scaled by white / 255. -/
def rgbcwCold (ct white : ℚ) : ℚ :=
  min (255 * max (kelvinOfMired ct - 2700) 0 / 3800) 255 * (white / 255)

/-- Final (warm, cold) pair of the RGBCW color-temperature branch, light.py
lines 477-487: cold is overridden to warm whenever warm > cold. -/
def rgbcwWarmCold (ct white : ℚ) : ℚ × ℚ :=
  (rgbcwWarm ct white,
   if rgbcwWarm ct white > rgbcwCold ct white then rgbcwWarm ct white
   else rgbcwCold ct white)

/-- Lookup of an effect name in EFFECT_MAP, light.py lines 532-534. -/
def effectCode (e : String) : Option Nat :=
  (EFFECT_MAP.find? (fun p => p.1 == e)).map (fun p => p.2)

/-- Body of the effect property for an integer-valued current effect, light.py
lines 409-421: the custom code check first, then the first matching entry of
EFFECT_MAP, else None. -/
def effectOfCode (code : Nat) : Option String :=
  if code = EFFECT_CUSTOM_CODE then some EFFECT_CUSTOM
  else
    match EFFECT_MAP.find? (fun p => p.2 == code) with
    | some p => some p.1
    | none => none

/-- FluxLight.effect property, light.py lines 409-421.  When current_effect
holds None or an effect name string, every equality comparison against the
integer custom code and the integer map codes is False in Python, so the
property returns None; only an integer-valued current effect can match. -/
def effect (s : LightState) : Option String :=
  match s.current_effect with
  | some (Sum.inr code) => effectOfCode code
  | _ => none

/-- Tail of FluxLight.turn_on after the color-temperature and explicit-white
special modes, light.py lines 513-565.  rgb0 is the RGB value resolved from the
hs_color argument at lines 446-450.  rand models the three random.randint
draws of the EFFECT_RANDOM branch.  When the resolved rgb is still None at
line 550, tuple(rgb) raises TypeError before any bulb call. -/
def turn_on_tail (hsToRGB : HS → RGB) (rgbToHs : RGB → HS) (rand : RGB)
    (args : TurnOnArgs) (rgb0 : Option RGB) (s : LightState) :
    LightState × List Cmd × Option PyErr :=
  if args.effect = some EFFECT_RANDOM then
    ({ s with hs_color := some (rgbToHs rand) },
      [Cmd.setRgbw (some rand.1) (some rand.2.1) (some rand.2.2) none none none], none)
  else
    match args.effect.bind effectCode with
    | some code =>
      ({ s with current_effect := args.effect.map Sum.inl },
        [Cmd.setPresetPattern code s.effect_speed], none)
    | none =>
      if !pyTruthyNat args.brightness && !rgb0.isSome && !pyTruthyBool s.state then
        ({ s with state := some true }, [Cmd.turnOn], none)
      else
        let b : Option Nat :=
          if pyTruthyNat args.brightness then args.brightness else s.last_brightness
        let s1 := { s with brightness := b }
        let rgb1 : Option RGB :=
          if !rgb0.isSome && s.last_hs_color.isSome then s.last_hs_color.map hsToRGB
          else rgb0
        match rgb1 with
        | none => (s1, [], some PyErr.typeError)
        | some rv =>
          let w : Option Nat :=
            if !pyTruthyNat args.white && s.mode == some Mode.rgbw then s.white_value
            else args.white
          let s2 := { s1 with state := some true, hs_color := some (rgbToHs rv) }
          match s.mode with
          | some Mode.w =>
            (s2, [Cmd.setRgbw (some 0) (some 0) (some 0)
                    (b.map fun n => (n : ℚ)) none none], none)
          | some Mode.rgbw =>
            (s2, [Cmd.setRgbw (some rv.1) (some rv.2.1) (some rv.2.2)
                    (w.map fun n => (n : ℚ)) none b], none)
          | _ => (s2, [Cmd.setRgb rv.1 rv.2.1 rv.2.2 b], none)

/-- FluxLight.turn_on, light.py lines 443-565.  bulbRgbww is the live getRgbww
readout consumed by temperature_cw in the explicit-white RGBCW branch.  In the
color-temperature branch, a missing white argument defaults to the cached white
value when positive, to 255 otherwise, and raises TypeError when the cached
white value is still None (None > 0 comparison at line 460). -/
def turn_on (hsToRGB : HS → RGB) (rgbToHs : RGB → HS) (rand : RGB)
    (bulbRgbww : RGBWW5) (args : TurnOnArgs) (s : LightState) :
    LightState × List Cmd × Option PyErr :=
  let rgb0 : Option RGB := args.hs_color.map hsToRGB
  match args.color_temp with
  | some ct =>
    let whiteRes : Except PyErr Nat :=
      match args.white with
      | some w => Except.ok w
      | none =>
        match s.white_value with
        | none => Except.error PyErr.typeError
        | some wv => Except.ok (if 0 < wv then wv else 255)
    match whiteRes with
    | Except.error e => (s, [], some e)
    | Except.ok w =>
      if s.mode == some Mode.rgbcw then
        let wc := rgbcwWarmCold ct ((w : ℚ))
        (s, [Cmd.setRgbw none none none (some wc.1) (some wc.2) none], none)
      else
        let b : Option Nat :=
          match args.brightness with
          | some bb => some bb
          | none => s.brightness
        if ct > (COLOR_TEMP_WARM_VS_COLD_WHITE_CUT_OFF : ℚ) then
          (s, [Cmd.setRgbw none none none (b.map fun n => (n : ℚ)) none none], none)
        else
          (s, [Cmd.setRgbw none none none none (b.map fun n => (n : ℚ)) none], none)
  | none =>
    match args.white with
    | some w =>
      if s.mode == some Mode.rgbcw then
        let t := temperature_cw bulbRgbww
        let c0 : ℚ := (if t.1 = 0 ∧ t.2 = 0 then 255 else (t.1 : ℚ)) * ((w : ℚ) / 255)
        let c1 : ℚ := (if t.1 = 0 ∧ t.2 = 0 then 255 else (t.2 : ℚ)) * ((w : ℚ) / 255)
        (s, [Cmd.setRgbw none none none (some c1) (some c0) none], none)
      else if s.mode == some Mode.rgbww then
        (s, [Cmd.setWarmWhite255 w], none)
      else turn_on_tail hsToRGB rgbToHs rand args rgb0 s
    | none => turn_on_tail hsToRGB rgbToHs rand args rgb0 s

/-- Concrete hue/saturation to RGB conversion used by witnesses. -/
def toRGB0 : HS → RGB := fun _ => (0, 0, 0)

/-- Concrete RGB to hue/saturation conversion used by witnesses. -/
def toHS0 : RGB → HS := fun _ => (0, 0)

/-- Concrete random RGB draw used by witnesses. -/
def rand0 : RGB := (0, 0, 0)

/-- Concrete live rgbww readout used by witnesses. -/
def bw0 : RGBWW5 := (0, 0, 0, 0, 0)

/-- Freshly constructed entity state: every cached field None, effect speed 70. -/
def s0 : LightState :=
  { state := none, brightness := none, hs_color := none, white_value := none,
    current_effect := none, last_brightness := none, last_hs_color := none,
    mode := none, get_rgbw := none, get_rgb := none, effect_speed := 70 }

/-- Entity state statically configured in RGBCW mode. -/
def sRgbcw : LightState := { s0 with mode := some Mode.rgbcw }

/-- Color-temperature command at 500 mired with explicit white 255. -/
def argsC3 : TurnOnArgs := { white := some 255, color_temp := some 500 }

/-- Explicit-white command with white 255 and no color temperature. -/
def argsC5 : TurnOnArgs := { white := some 255 }

/-- Live rgbww readout with warm channel 200 and cold channel 100. -/
def bwC5 : RGBWW5 := (0, 0, 0, 200, 100)

/-- Effect-only command selecting the colorjump preset. -/
def argsC6 : TurnOnArgs := { effect := some "colorjump" }

/-- Snapshot with the device reporting on, brightness 0, effect byte 0x38. -/
def raw0 : RawBulbState :=
  { mode := "color", rgbwcapable := false, rgbwprotocol := false, is_on := true,
    brightness := 0, raw_state3 := 0x38, rgb := (10, 20, 30),
    rgbw := (10, 20, 30, 40), rgbww := (0, 0, 0, 0, 0) }

/-- Snapshot with the device reporting on, brightness 128, effect byte 0x38. -/
def raw38 : RawBulbState :=
  { mode := "color", rgbwcapable := true, rgbwprotocol := false, is_on := true,
    brightness := 128, raw_state3 := 0x38, rgb := (10, 20, 30),
    rgbw := (10, 20, 30, 40), rgbww := (0, 0, 0, 0, 0) }

/-- Entity state in RGBW mode with a recorded last color and white value. -/
def s9 : LightState :=
  { s0 with
    mode := some Mode.rgbw
    last_hs_color := some (0, 0)
    white_value := some 128 }

/-- Brightness-only command with brightness 100. -/
def args9 : TurnOnArgs := { brightness := some 100 }

/-- Brightness-only command with brightness 77. -/
def args10 : TurnOnArgs := { brightness := some 77 }

/-- Claim C3 as worded: Kelvin clamped to a floor of 2700 and that clamped
Kelvin value used directly in the warm and cold formulas, then scaling by
white / 255 and the warm-dominance override.  Kept separate from the source
translation rgbcwWarmCold for comparison. -/
def specC3WarmCold (ct white : ℚ) : ℚ × ℚ :=
  let k := max (kelvinOfMired ct) 2700
  let warm := 255 * (1 - k / 3800) * (white / 255)
  let cold := min (255 * k / 3800) 255 * (white / 255)
  (warm, if warm > cold then warm else cold)

/-- On every successful refresh the stored current effect is the raw effect
byte of the snapshot (light.py line 344), whatever the other fields do. -/
theorem update_current_effect (f : RGB → HS) (raw : RawBulbState) (s : LightState) :
    (update f (Except.ok raw) s).current_effect = some (Sum.inr raw.raw_state3) := rfl

/-- A code that appears in EFFECT_MAP is mapped back to its effect name by the
effect property lookup. -/
theorem effectOfCode_mem (name : String) (b : Nat) (h : (name, b) ∈ EFFECT_MAP) :
    effectOfCode b = some name := by
  have hall : ∀ p ∈ EFFECT_MAP, effectOfCode p.2 = some p.1 := by decide
  exact hall (name, b) h

/-- A code absent from EFFECT_MAP and different from the custom code is mapped
to none by the effect property lookup. -/
theorem effectOfCode_of_not_mem (b : Nat) (h60 : b ≠ EFFECT_CUSTOM_CODE)
    (hnm : b ∉ EFFECT_MAP.map Prod.snd) : effectOfCode b = none := by
  unfold effectOfCode
  rw [if_neg h60]
  cases hf : EFFECT_MAP.find? (fun p => p.2 == b) with
  | none => rfl
  | some p =>
    exfalso
    have hp := List.find?_some hf
    have hm : p ∈ EFFECT_MAP := List.mem_of_find?_eq_some hf
    apply hnm
    have hpb : p.2 = b := by simpa using hp
    rw [← hpb]
    exact List.mem_map_of_mem Prod.snd hm

/-- C1: for every refresh that succeeds, the resulting on/off state is the
conjunction of the raw on flag and the computed brightness being positive;
whenever the computed brightness is 0, the stored state is forced false, even
if the raw snapshot reports the device on. -/
theorem C1_refresh_isOn_conjunction (f : RGB → HS) (raw : RawBulbState) (s : LightState) :
    (update f (Except.ok raw) s).state =
      some (raw.is_on && decide (0 < ((update f (Except.ok raw) s).brightness.getD 0))) ∧
    ((update f (Except.ok raw) s).brightness = some 0 →
      (update f (Except.ok raw) s).state = some false) := by
  constructor
  · by_cases h1 : raw.mode = "ww" <;> cases h2 : raw.rgbwcapable <;>
      cases h3 : raw.rgbwprotocol <;> simp [update, h1, h2, h3]
  · intro h
    by_cases h1 : raw.mode = "ww" <;> cases h2 : raw.rgbwcapable <;>
      cases h3 : raw.rgbwprotocol <;>
      simp [update, h1, h2, h3] at h ⊢ <;> simp [h]

/-- C1 witness: a snapshot reporting the device on with computed brightness 0
resolves to a stored off state. -/
theorem C1_witness :
    (update toHS0 (Except.ok raw0) s0).brightness = some 0 ∧
    (update toHS0 (Except.ok raw0) s0).state = some false :=
  ⟨by decide, (C1_refresh_isOn_conjunction toHS0 raw0 s0).2 (by decide)⟩

/-- C2: the mode derived by a successful refresh is exactly WHITE_ONLY when the
raw sub-mode string is ww, else RGBW when the snapshot is rgbw-capable and does
not use the rgbw protocol, else RGB; in particular no refresh assigns RGBCW or
RGBWW. -/
theorem C2_refresh_mode_derivation (f : RGB → HS) (raw : RawBulbState) (s : LightState) :
    (update f (Except.ok raw) s).mode =
      some (if raw.mode = "ww" then Mode.w
        else if raw.rgbwcapable && !raw.rgbwprotocol then Mode.rgbw
        else Mode.rgb) ∧
    (update f (Except.ok raw) s).mode ≠ some Mode.rgbcw ∧
    (update f (Except.ok raw) s).mode ≠ some Mode.rgbww := by
  refine ⟨?_, ?_, ?_⟩ <;>
    by_cases h1 : raw.mode = "ww" <;> cases h2 : raw.rgbwcapable <;>
      cases h3 : raw.rgbwprotocol <;> simp [update, h1, h2, h3]

/-- C3 counterexample: at a color-temperature command of 500 mired with white
255 in RGBCW mode, the code issues warm = cold = 255, while the claimed formula
(Kelvin clamped to a floor of 2700 and used directly as k) yields a pair
different from (255, 255): clamping would give k = 2700, warm = 255 * 1100/3800
and cold = 255 * 2700/3800. -/
theorem C3_counterexample :
    (turn_on toRGB0 toHS0 rand0 bw0 argsC3 sRgbcw).2.1 =
      [Cmd.setRgbw none none none (some 255) (some 255) none] ∧
    specC3WarmCold 500 255 ≠ (255, 255) := by
  constructor
  · norm_num [turn_on, argsC3, sRgbcw, s0, rgbcwWarmCold, rgbcwWarm, rgbcwCold, kelvinOfMired]
  · norm_num [specC3WarmCold, kelvinOfMired]

/-- C3 amended: for every color-temperature command in RGBCW mode with resolved
white w, the Kelvin value comes from linear interpolation between (500 mired,
2700 K) and (153 mired, 6500 K); then k = max(Kelvin - 2700, 0) (the excess
over 2700, floored at 0, not the Kelvin value clamped to 2700); warm =
255 * (1 - k/3800) and cold = min(255 * k/3800, 255), both scaled by w/255,
and cold forced equal to warm whenever warm > cold; the issued command is the
two-channel white command (w = warm, w2 = cold). -/
theorem C3_amended_colortemp_rgbcw (hsToRGB : HS → RGB) (rgbToHs : RGB → HS)
    (rand : RGB) (bw : RGBWW5) (args : TurnOnArgs) (s : LightState) (ct : ℚ) (wN : Nat)
    (hm : s.mode = some Mode.rgbcw) (hct : args.color_temp = some ct)
    (hw : args.white = some wN) :
    (turn_on hsToRGB rgbToHs rand bw args s).2.1 =
      [Cmd.setRgbw none none none
        (some (255 * (1 - max (kelvinOfMired ct - 2700) 0 / 3800) * ((wN : ℚ) / 255)))
        (some (if 255 * (1 - max (kelvinOfMired ct - 2700) 0 / 3800) * ((wN : ℚ) / 255) >
                 min (255 * max (kelvinOfMired ct - 2700) 0 / 3800) 255 * ((wN : ℚ) / 255)
               then 255 * (1 - max (kelvinOfMired ct - 2700) 0 / 3800) * ((wN : ℚ) / 255)
               else min (255 * max (kelvinOfMired ct - 2700) 0 / 3800) 255 * ((wN : ℚ) / 255)))
        none] ∧
    (turn_on hsToRGB rgbToHs rand bw args s).2.2 = none := by
  simp [turn_on, hct, hw, hm, rgbcwWarmCold, rgbcwWarm, rgbcwCold]

/-- C3 witness: the amended color-temperature formula instantiated at 500 mired
with white 255 in RGBCW mode. -/
theorem C3_witness :
    (turn_on toRGB0 toHS0 rand0 bw0 argsC3 sRgbcw).2.1 =
      [Cmd.setRgbw none none none (some 255) (some 255) none] := by
  have h := (C3_amended_colortemp_rgbcw toRGB0 toHS0 rand0 bw0 argsC3 sRgbcw 500 255
    rfl rfl rfl).1
  rw [h]
  norm_num [kelvinOfMired]

/-- C4: mired 500 maps to Kelvin 2700 and yields warm = 255, cold = 0 (stated
at white = 255, where the white/255 brightness scaling is the identity); mired
153 maps to Kelvin 6500; and for every mired and white input where the derived
warm exceeds the derived cold, the output cold channel is forced equal to the
warm channel. -/
theorem C4_colortemp_endpoints :
    kelvinOfMired 500 = 2700 ∧ kelvinOfMired 153 = 6500 ∧
    rgbcwWarm 500 255 = 255 ∧ rgbcwCold 500 255 = 0 ∧
    ∀ ct w : ℚ, rgbcwWarm ct w > rgbcwCold ct w →
      (rgbcwWarmCold ct w).2 = (rgbcwWarmCold ct w).1 := by
  refine ⟨by norm_num [kelvinOfMired], by norm_num [kelvinOfMired],
    by norm_num [rgbcwWarm, kelvinOfMired], by norm_num [rgbcwCold, kelvinOfMired], ?_⟩
  intro ct w h
  show (if rgbcwWarm ct w > rgbcwCold ct w then rgbcwWarm ct w else rgbcwCold ct w) =
    rgbcwWarm ct w
  rw [if_pos h]

/-- C4 witness: at 500 mired with white 255 the derived warm exceeds the
derived cold and the output cold equals the warm channel. -/
theorem C4_witness :
    rgbcwWarm 500 255 > rgbcwCold 500 255 ∧
    (rgbcwWarmCold 500 255).2 = (rgbcwWarmCold 500 255).1 :=
  ⟨by norm_num [rgbcwWarm, rgbcwCold, kelvinOfMired],
   C4_colortemp_endpoints.2.2.2.2 500 255
     (by norm_num [rgbcwWarm, rgbcwCold, kelvinOfMired])⟩

/-- C5 counterexample: with current warm channel 200 and cold channel 100 and
an explicit white command of 255 in RGBCW mode, the code issues w = 200 (the
scaled warm value) and w2 = 100 (the scaled cold value), not w = 100 and
w2 = 200 as the claim's channel assignment predicts. -/
theorem C5_counterexample :
    (turn_on toRGB0 toHS0 rand0 bwC5 argsC5 sRgbcw).2.1 =
      [Cmd.setRgbw none none none (some 200) (some 100) none] ∧
    (turn_on toRGB0 toHS0 rand0 bwC5 argsC5 sRgbcw).2.1 ≠
      [Cmd.setRgbw none none none (some 100) (some 200) none] := by
  refine ⟨?_, ?_⟩ <;> norm_num [turn_on, argsC5, sRgbcw, s0, bwC5, temperature_cw]

/-- C5 amended: for every explicit-white command (no color temperature) in
RGBCW mode, if the current cold and warm channels are both zero they are
replaced by the full-scale baseline (255, 255); both are scaled by white/255;
and the resulting two-channel white command carries the scaled warm value in
channel 1 (w) and the scaled cold value in channel 2 (w2) — the same channel
order as the color-temperature branch, not swapped. -/
theorem C5_amended_white_rgbcw (hsToRGB : HS → RGB) (rgbToHs : RGB → HS)
    (rand : RGB) (r g b ww cw : Nat) (args : TurnOnArgs) (s : LightState) (wN : Nat)
    (hm : s.mode = some Mode.rgbcw) (hct : args.color_temp = none)
    (hw : args.white = some wN) :
    (turn_on hsToRGB rgbToHs rand (r, g, b, ww, cw) args s).2.1 =
      [Cmd.setRgbw none none none
        (some ((if cw = 0 ∧ ww = 0 then (255 : ℚ) else (ww : ℚ)) * ((wN : ℚ) / 255)))
        (some ((if cw = 0 ∧ ww = 0 then (255 : ℚ) else (cw : ℚ)) * ((wN : ℚ) / 255)))
        none] ∧
    (turn_on hsToRGB rgbToHs rand (r, g, b, ww, cw) args s).2.2 = none := by
  simp [turn_on, hct, hw, hm, temperature_cw]

/-- C5 witness: the amended explicit-white behaviour instantiated at current
warm 200, cold 100 and white 255 in RGBCW mode. -/
theorem C5_witness :
    (turn_on toRGB0 toHS0 rand0 bwC5 argsC5 sRgbcw).2.1 =
      [Cmd.setRgbw none none none (some 200) (some 100) none] := by
  have h := (C5_amended_white_rgbcw toRGB0 toHS0 rand0 0 0 0 200 100 argsC5 sRgbcw 255
    rfl rfl rfl).1
  rw [show bwC5 = ((0, 0, 0, 200, 100) : RGBWW5) from rfl, h]
  norm_num

/-- C6: applying a command whose only field is the colorjump effect issues
exactly one preset-pattern command with code 0x38 and the configured effect
speed, as the claim states; but afterwards the effect accessor reports none,
not colorjump, because turn_on stores the effect name string while the effect
property only matches raw byte codes — the stored name is dead for the
accessor until the next refresh overwrites it with the raw byte. -/
theorem C6_colorjump_preset_accessor :
    (turn_on toRGB0 toHS0 rand0 bw0 argsC6 s0).2.1 =
      [Cmd.setPresetPattern 0x38 s0.effect_speed] ∧
    (turn_on toRGB0 toHS0 rand0 bw0 argsC6 s0).2.2 = none ∧
    (turn_on toRGB0 toHS0 rand0 bw0 argsC6 s0).1.current_effect =
      some (Sum.inl "colorjump") ∧
    effect (turn_on toRGB0 toHS0 rand0 bw0 argsC6 s0).1 = none := by decide

/-- C7: after a refresh that stores raw effect byte b, the effect accessor
reports the mapped effect name when b is a code of the fixed effect table,
Custom when b is 0x60, and none for every byte not in the table and different
from 0x60. -/
theorem C7_effect_reporting (f : RGB → HS) (raw : RawBulbState) (s : LightState) :
    (raw.raw_state3 = 0x60 →
      effect (update f (Except.ok raw) s) = some EFFECT_CUSTOM) ∧
    (∀ name : String, (name, raw.raw_state3) ∈ EFFECT_MAP →
      effect (update f (Except.ok raw) s) = some name) ∧
    (raw.raw_state3 ≠ 0x60 → raw.raw_state3 ∉ EFFECT_MAP.map Prod.snd →
      effect (update f (Except.ok raw) s) = none) := by
  have hce : effect (update f (Except.ok raw) s) = effectOfCode raw.raw_state3 := by
    simp [effect, update_current_effect]
  refine ⟨?_, ?_, ?_⟩
  · intro h
    rw [hce]
    simp [effectOfCode, EFFECT_CUSTOM_CODE, h]
  · intro name hmem
    rw [hce]
    exact effectOfCode_mem name _ hmem
  · intro h60 hnm
    rw [hce]
    exact effectOfCode_of_not_mem _ h60 hnm

/-- C7 witness: a refresh storing raw effect byte 0x38 makes the effect
accessor report colorjump. -/
theorem C7_witness :
    ("colorjump", raw38.raw_state3) ∈ EFFECT_MAP ∧
    effect (update toHS0 (Except.ok raw38) s0) = some "colorjump" :=
  ⟨by decide, (C7_effect_reporting toHS0 raw38 s0).2.1 "colorjump" (by decide)⟩

/-- C8: if the client fetch inside a refresh fails, the refresh returns without
raising further and every field of the cached normalized state (isOn,
brightness, hueSaturation, whiteValue, activeEffect, mode, lastBrightness,
lastHueSaturation) is exactly as before the call, whatever partial progress the
fetch made on the raw caches. -/
theorem C8_stale_state_on_error (f : RGB → HS) (partialRgbw : Option RGBW4)
    (s : LightState) :
    (update f (Except.error partialRgbw) s).state = s.state ∧
    (update f (Except.error partialRgbw) s).brightness = s.brightness ∧
    (update f (Except.error partialRgbw) s).hs_color = s.hs_color ∧
    (update f (Except.error partialRgbw) s).white_value = s.white_value ∧
    (update f (Except.error partialRgbw) s).current_effect = s.current_effect ∧
    (update f (Except.error partialRgbw) s).mode = s.mode ∧
    (update f (Except.error partialRgbw) s).last_brightness = s.last_brightness ∧
    (update f (Except.error partialRgbw) s).last_hs_color = s.last_hs_color := by
  cases partialRgbw <;> simp [update]

/-- C9: for every turn-on command in RGBW mode that sets a nonzero brightness
but omits the white value, the color and the color temperature, given a
previously recorded last hue/saturation and a previously observed white value,
the issued RGBW command carries that white value as its white channel. -/
theorem C9_rgbw_white_default (hsToRGB : HS → RGB) (rgbToHs : RGB → HS)
    (rand : RGB) (bw : RGBWW5) (args : TurnOnArgs) (s : LightState)
    (b wv : Nat) (hsv : HS)
    (hm : s.mode = some Mode.rgbw) (hct : args.color_temp = none)
    (hw : args.white = none) (heff : args.effect = none) (hhs : args.hs_color = none)
    (hb : args.brightness = some b) (hb0 : b ≠ 0)
    (hlast : s.last_hs_color = some hsv) (hwv : s.white_value = some wv) :
    (turn_on hsToRGB rgbToHs rand bw args s).2.1 =
      [Cmd.setRgbw (some (hsToRGB hsv).1) (some (hsToRGB hsv).2.1)
        (some (hsToRGB hsv).2.2) (some (wv : ℚ)) none (some b)] ∧
    (turn_on hsToRGB rgbToHs rand bw args s).2.2 = none := by
  simp [turn_on, turn_on_tail, hct, hw, heff, hhs, hb, hlast, hwv, hm,
    pyTruthyNat, pyTruthyBool, hb0, EFFECT_RANDOM, effectCode]

/-- C9 witness: a brightness-only command in RGBW mode with recorded last color
and white value 128 issues an RGBW command whose white channel is 128. -/
theorem C9_witness :
    (turn_on toRGB0 toHS0 rand0 bw0 args9 s9).2.1 =
      [Cmd.setRgbw (some 0) (some 0) (some 0) (some 128) none (some 100)] := by
  have h := (C9_rgbw_white_default toRGB0 toHS0 rand0 bw0 args9 s9 100 128 (0, 0)
    rfl rfl rfl rfl rfl rfl (by decide) rfl rfl).1
  rw [h]
  norm_num [toRGB0]

/-- C10: a turn-on command that carries a nonzero brightness but no color,
issued while the last hue/saturation has never been set, raises a TypeError in
the hue-saturation conversion (tuple of None) before any bulb command is
issued. -/
theorem C10_color_default_typeerror (hsToRGB : HS → RGB) (rgbToHs : RGB → HS)
    (rand : RGB) (bw : RGBWW5) (args : TurnOnArgs) (s : LightState) (b : Nat)
    (hct : args.color_temp = none) (hw : args.white = none)
    (heff : args.effect = none) (hhs : args.hs_color = none)
    (hb : args.brightness = some b) (hb0 : b ≠ 0)
    (hlast : s.last_hs_color = none) :
    (turn_on hsToRGB rgbToHs rand bw args s).2.2 = some PyErr.typeError ∧
    (turn_on hsToRGB rgbToHs rand bw args s).2.1 = [] := by
  simp [turn_on, turn_on_tail, hct, hw, heff, hhs, hb, hlast,
    pyTruthyNat, pyTruthyBool, hb0, EFFECT_RANDOM, effectCode]

/-- C10 witness: a brightness-only command on a freshly constructed entity
raises the TypeError with no bulb command issued. -/
theorem C10_witness :
    (turn_on toRGB0 toHS0 rand0 bw0 args10 s0).2.2 = some PyErr.typeError ∧
    (turn_on toRGB0 toHS0 rand0 bw0 args10 s0).2.1 = [] :=
  C10_color_default_typeerror toRGB0 toHS0 rand0 bw0 args10 s0 77
    rfl rfl rfl rfl rfl (by decide) rfl

end FluxLed
